import Mathlib

/-!
# Verification of `StableDiffusionLoRASetup`

A shallow embedding of `modules/modelSetup/StableDiffusionLoRASetup.py`
(OneTrainer).  The training-setup orchestrator decides which subsystems
receive gradients, where modules reside, and how learning rates are
reported.  Python tensors of embedding rows are modelled as `List (List Int)`
(bit-identical row equality becomes `Int` list equality); the mutable
`StableDiffusionModel` object becomes an explicit state record threaded
through each operation.  Each statement of the two stateful methods
(`setup_model`, `after_optimizer_step`) is embedded as a named step
function; the method itself is the composition of its steps in source
order.

The source file references an ambient module-level configuration object
named `args` (a flat schema) in several branches, distinct from the
`config : TrainConfig` parameter.  We model it as an explicit `Args` record
passed alongside `config`.

Helper methods defined outside this file in the repository
(`stop_text_encoder_training_elapsed`, `stop_unet_training_elapsed`,
`_create_new_embedding`, `_add_embeddings_to_clip`,
`_embeddigns_after_optimizer_step`, `create_param_groups`) are modelled from
the specification, and are marked as such in their doc comments.
-/

namespace SDLoRASetup

/-- Training progress counters (`modules/util/TrainProgress.py`):
epoch index and global step index. -/
structure TrainProgress where
  epoch : Nat
  global_step : Nat
  deriving DecidableEq, Repr

/-- Per-module section of `TrainConfig` (`config.text_encoder`, `config.unet`):
trainable flag, learning rate, and the epoch cutoff consulted by the
`stop_*_training_elapsed` predicates.  Learning rates are opaque values,
modelled as `Nat`. -/
structure ModulePart where
  train : Bool
  learning_rate : Nat
  stop_training_after : Nat
  deriving DecidableEq, Repr

/-- The fields of `TrainConfig` read by this source file. -/
structure TrainConfig where
  text_encoder : ModulePart
  unet : ModulePart
  train_embedding : Bool
  lora_rank : Nat
  lora_alpha : Nat
  dropout_probability : Nat
  rescale_noise_scheduler_to_zero_terminal_snr : Bool
  align_prop : Bool
  latent_caching : Bool
  deriving DecidableEq, Repr

/-- The ambient module-level `args` object (flat schema) referenced by the
source: `args.train_embedding`, `args.train_embedding_epochs`,
`args.train_unet`, `args.train_unet_epochs`, `args.embedding_learning_rate`,
`args.initial_embedding_text`, `args.token_count`. -/
structure Args where
  train_embedding : Bool
  train_embedding_epochs : Nat
  train_unet : Bool
  train_unet_epochs : Nat
  embedding_learning_rate : Nat
  initial_embedding_text : String
  token_count : Nat
  deriving DecidableEq, Repr

/-- A `LoRAModuleWrapper` as seen by this file: its gradient-tracking flag,
its dropout probability, whether it has been hooked into the wrapped module,
and its enumerable trainable parameters (opaque row values). -/
structure LoRAModuleWrapper where
  requires_grad : Bool
  dropout : Nat
  hooked : Bool
  params : List (List Int)
  deriving DecidableEq, Repr

/-- A `StableDiffusionModelEmbedding`: learned vector rows, the token ids it
occupies in the embedding matrix, and a name. -/
structure SDEmbedding where
  text_encoder_vector : List (List Int)
  text_tokens : List Nat
  name : String
  deriving DecidableEq, Repr

/-- The slice of `StableDiffusionModel` state mutated by this file.
`requires_grad` flags of the three base modules, the two nullable LoRA
wrappers, the text encoder's input-embedding matrix (rows) and its
gradient flag, the embedding list, the snapshot and freeze mask, and the
run's progress counter. -/
structure SDModel where
  text_encoder_grad : Bool
  unet_grad : Bool
  vae_grad : Bool
  text_encoder_lora : Option LoRAModuleWrapper
  unet_lora : Option LoRAModuleWrapper
  embedding_matrix : List (List Int)
  embedding_grad : Bool
  embeddings : List SDEmbedding
  all_text_encoder_original_token_embeds : List (List Int)
  text_encoder_untrainable_token_embeds_mask : List Bool
  train_progress : TrainProgress
  deriving DecidableEq, Repr

/-- Modelled from the spec: the PhaseGate predicate (§4.1), used by the
`stop_*_training_elapsed` helpers defined in the base class outside this
file.  `elapsed(limit_epochs, current_epoch)` returns true iff
`current_epoch >= limit_epochs`. -/
def elapsed (limit_epochs current_epoch : Nat) : Bool :=
  limit_epochs ≤ current_epoch

/-- Modelled from the spec: `stop_text_encoder_training_elapsed` (defined in
the base setup class, not in this file) applies the PhaseGate to the text
encoder's configured stop epoch and the progress epoch. -/
def stop_text_encoder_training_elapsed (config : TrainConfig)
    (progress : TrainProgress) : Bool :=
  elapsed config.text_encoder.stop_training_after progress.epoch

/-- Modelled from the spec: `stop_unet_training_elapsed` (defined in the base
setup class, not in this file) applies the PhaseGate to the denoiser's
configured stop epoch and the progress epoch. -/
def stop_unet_training_elapsed (config : TrainConfig)
    (progress : TrainProgress) : Bool :=
  elapsed config.unet.stop_training_after progress.epoch

/-- Modelled from the spec: the EmbeddingGuard `restore` step (§4.4),
implemented by `_embeddigns_after_optimizer_step` in
`ModelSetupClipEmbeddingMixin` outside this file.  For every row where the
mask is true, overwrite the matrix's row with the corresponding row of the
snapshot copy; rows where the mask is false keep their current value. -/
def restore : List (List Int) → List (List Int) → List Bool → List (List Int)
  | [], _, _ => []
  | m :: ms, [], _ => m :: ms
  | m :: ms, _ :: _, [] => m :: ms
  | m :: ms, o :: os, b :: bs => (if b then o else m) :: restore ms os bs

/-- Modelled from the spec: the EmbeddingGuard `snapshot` step (§4.4),
implemented by `_add_embeddings_to_clip` in `ModelSetupClipEmbeddingMixin`
outside this file.  Captures every row's current value and records which
rows are NOT among the trainable token ids (mask true = frozen). -/
def snapshot (matrix : List (List Int)) (trainable_token_ids : List Nat) :
    List (List Int) × List Bool :=
  (matrix, (List.range matrix.length).map (fun i => !(trainable_token_ids.contains i)))

/-- Modelled from the spec: `_create_new_embedding` (§6, mixin outside this
file) builds a fixed-size vector from seed text together with the token ids
it occupies.  The vector contents are opaque to this file; we make them
deterministic zero rows and allocate token ids after the current matrix. -/
def create_new_embedding (matrix_len token_count : Nat) :
    List (List Int) × List Nat :=
  (List.replicate token_count [0], (List.range token_count).map (· + matrix_len))

/-- Set the `requires_grad` flag of an optional LoRA wrapper: the Python
pattern `wrapper.requires_grad_(b)` guarded by a non-None check is realized
by `Option.map`. -/
def setLoraGrad (l : Option LoRAModuleWrapper) (b : Bool) :
    Option LoRAModuleWrapper :=
  l.map (fun w => { w with requires_grad := b })

/-- Set the dropout probability of an optional LoRA wrapper
(`wrapper.set_dropout(p)`). -/
def setLoraDropout (l : Option LoRAModuleWrapper) (p : Nat) :
    Option LoRAModuleWrapper :=
  l.map (fun w => { w with dropout := p })

/-- Hook an optional LoRA wrapper into its wrapped module
(`wrapper.hook_to_module()`). -/
def hookLora (l : Option LoRAModuleWrapper) : Option LoRAModuleWrapper :=
  l.map (fun w => { w with hooked := true })

/-- A fresh `LoRAModuleWrapper` as constructed in `setup_model`
(`LoRAModuleWrapper(module, rank, name, alpha, ...)`). Dropout and flags
start at their defaults; parameters are opaque and start empty. -/
def mkLora : LoRAModuleWrapper :=
  { requires_grad := false, dropout := 0, hooked := false, params := [] }

/-- `setup_model` statement: `if model.text_encoder_lora is None:` create
the text-encoder LoRA wrapper. -/
def ensure_te_lora (m : SDModel) : SDModel :=
  if m.text_encoder_lora.isNone then { m with text_encoder_lora := some mkLora }
  else m

/-- `setup_model` statement: `if model.unet_lora is None:` create the
denoiser LoRA wrapper. -/
def ensure_unet_lora (m : SDModel) : SDModel :=
  if m.unet_lora.isNone then { m with unet_lora := some mkLora } else m

/-- `setup_model` statements: `set_dropout(config.dropout_probability)` on
both wrappers. -/
def set_dropouts (m : SDModel) (config : TrainConfig) : SDModel :=
  { m with
      text_encoder_lora := setLoraDropout m.text_encoder_lora config.dropout_probability,
      unet_lora := setLoraDropout m.unet_lora config.dropout_probability }

/-- `setup_model` statements: `requires_grad_(False)` on the text encoder,
the denoiser and the autoencoder base modules. -/
def freeze_base_modules (m : SDModel) : SDModel :=
  { m with text_encoder_grad := false, unet_grad := false, vae_grad := false }

/-- `setup_model` / `after_optimizer_step` statement: the PhaseGate-gated
text-encoder adapter toggle
(`train_text_encoder = config.text_encoder.train and not ...elapsed`). -/
def toggle_te_lora (m : SDModel) (config : TrainConfig) : SDModel :=
  { m with
      text_encoder_lora := setLoraGrad m.text_encoder_lora
        (config.text_encoder.train &&
          !(stop_text_encoder_training_elapsed config m.train_progress)) }

/-- `setup_model` / `after_optimizer_step` statement: the PhaseGate-gated
denoiser adapter toggle
(`train_unet = config.unet.train and not ...elapsed`). -/
def toggle_unet_lora_gated (m : SDModel) (config : TrainConfig) : SDModel :=
  { m with
      unet_lora := setLoraGrad m.unet_lora
        (config.unet.train &&
          !(stop_unet_training_elapsed config m.train_progress)) }

/-- `setup_model` statement: `train_embedding = args.train_embedding and
(model.train_progress.epoch < args.train_embedding_epochs)` followed by the
conditional `requires_grad_(True)` on the input embeddings (the dtype cast
on the same branch is outside the modelled state). -/
def toggle_embedding_window (m : SDModel) (args : Args) : SDModel :=
  if args.train_embedding &&
      decide (m.train_progress.epoch < args.train_embedding_epochs) then
    { m with embedding_grad := true }
  else m

/-- `setup_model` statement: the duplicate denoiser toggle computed from the
ambient `args` (`train_unet = args.train_unet and (model.train_progress.epoch
< args.train_unet_epochs)`), applied unconditionally and overriding the
earlier PhaseGate-gated one. -/
def toggle_unet_lora_args (m : SDModel) (args : Args) : SDModel :=
  { m with
      unet_lora := setLoraGrad m.unet_lora
        (args.train_unet &&
          decide (m.train_progress.epoch < args.train_unet_epochs)) }

/-- `setup_model` statements: `hook_to_module()` on both wrappers. -/
def hook_loras (m : SDModel) : SDModel :=
  { m with
      text_encoder_lora := hookLora m.text_encoder_lora,
      unet_lora := hookLora m.unet_lora }

/-- `setup_model` statement: `if len(model.embeddings) == 0:` create the
single embedding from seed text. -/
def ensure_embeddings (m : SDModel) (args : Args) : SDModel :=
  if m.embeddings.length == 0 then
    let ve := create_new_embedding m.embedding_matrix.length args.token_count
    { m with embeddings := [⟨ve.1, ve.2, "embedding"⟩] }
  else m

/-- `setup_model` statements: `_add_embeddings_to_clip(...)` and the two
assignments that store its results.  Note this is NOT guarded by the
embeddings-creation check: it runs on every call. -/
def assign_snapshot (m : SDModel) : SDModel :=
  { m with
      all_text_encoder_original_token_embeds :=
        (snapshot m.embedding_matrix
          ((m.embeddings.headD ⟨[], [], ""⟩).text_tokens)).1,
      text_encoder_untrainable_token_embeds_mask :=
        (snapshot m.embedding_matrix
          ((m.embeddings.headD ⟨[], [], ""⟩).text_tokens)).2 }

/-- `setup_model(model, config)` from the source (state-mutation part,
statements composed in source order).  Optimizer/EMA construction delegates
to external factories and is not part of the modelled state. -/
def setup_model (model : SDModel) (config : TrainConfig) (args : Args) :
    SDModel :=
  assign_snapshot
    (ensure_embeddings
      (hook_loras
        (toggle_unet_lora_args
          (toggle_embedding_window
            (toggle_unet_lora_gated
              (toggle_te_lora
                (freeze_base_modules
                  (set_dropouts (ensure_unet_lora (ensure_te_lora model)) config))
                config)
              config)
            args)
          args))
      args)

/-- `after_optimizer_step` statement: `train_embedding =
model.train_progress.epoch < args.train_embedding_epochs` followed by
`if args.train_embedding and not train_embedding: requires_grad_(False)`
on the input embeddings. -/
def disable_embedding_after_window (m : SDModel) (args : Args) : SDModel :=
  if args.train_embedding &&
      !(decide (m.train_progress.epoch < args.train_embedding_epochs)) then
    { m with embedding_grad := false }
  else m

/-- `after_optimizer_step` statement: the unconditional call to
`_embeddigns_after_optimizer_step` (the EmbeddingGuard restore). -/
def restore_embedding_rows (m : SDModel) : SDModel :=
  { m with
      embedding_matrix := restore m.embedding_matrix
        m.all_text_encoder_original_token_embeds
        m.text_encoder_untrainable_token_embeds_mask }

/-- `after_optimizer_step(model, config, train_progress)` from the source
(statements composed in source order).  Every phase decision reads
`model.train_progress`; the `train_progress` argument is never used. -/
def after_optimizer_step (model : SDModel) (config : TrainConfig)
    (args : Args) (train_progress : TrainProgress) : SDModel :=
  restore_embedding_rows
    (disable_embedding_after_window
      (toggle_unet_lora_gated (toggle_te_lora model config) config)
      args)

/-- Device tiers: the fast `train_device` and the slow `temp_device`. -/
inductive Device where
  | train
  | temp
  deriving DecidableEq, Repr

/-- The residency and train/eval assignment produced by
`setup_train_device`. -/
structure DevicePlacement where
  text_encoder : Device
  vae : Device
  unet : Device
  depth_estimator : Device
  text_encoder_training : Bool
  vae_training : Bool
  unet_training : Bool
  deriving DecidableEq, Repr

/-- `setup_train_device(model, config)` from the source, as the pure tier
assignment it computes.  `debug_mode` is the setup object's constructor
flag (`self.debug_mode`). -/
def setup_train_device (debug_mode : Bool) (config : TrainConfig) :
    DevicePlacement :=
  let vae_on_train_device := debug_mode || config.align_prop
  let text_encoder_on_train_device :=
    config.text_encoder.train || config.train_embedding || config.align_prop ||
      !config.latent_caching
  { text_encoder := if text_encoder_on_train_device then .train else .temp,
    vae := if vae_on_train_device then .train else .temp,
    unet := .train,
    depth_estimator := .temp,
    text_encoder_training := config.text_encoder.train,
    vae_training := false,
    unet_training := config.unet.train }

/-- Modelled from the spec: `create_param_groups` (base class, outside this
file) pairs a parameter collection with its learning rate as one named
group (§4.5). -/
structure ParamGroup where
  params : List (List Int)
  lr : Nat
  deriving DecidableEq, Repr

/-- `create_parameters_for_optimizer(model, config)` from the source: the
text-encoder adapter group first (if `config.text_encoder.train`), then the
embedding group (if `args.train_embedding`), then the denoiser adapter
group (if `config.unet.train`). -/
def create_parameters_for_optimizer (model : SDModel) (config : TrainConfig)
    (args : Args) : List ParamGroup :=
  (if config.text_encoder.train then
    [⟨(model.text_encoder_lora.map (fun w => w.params)).getD [],
      config.text_encoder.learning_rate⟩]
   else []) ++
  (if args.train_embedding then
    [⟨model.embedding_matrix, args.embedding_learning_rate⟩]
   else []) ++
  (if config.unet.train then
    [⟨(model.unet_lora.map (fun w => w.params)).getD [],
      config.unet.learning_rate⟩]
   else [])

/-- `create_parameters(model, config)` from the source: the flat trainable
parameter collection used to seed the EMA tracker. -/
def create_parameters (model : SDModel) (config : TrainConfig) :
    List (List Int) :=
  (if config.text_encoder.train then
    (model.text_encoder_lora.map (fun w => w.params)).getD []
   else []) ++
  (if config.train_embedding then model.embedding_matrix else []) ++
  (if config.unet.train then
    (model.unet_lora.map (fun w => w.params)).getD []
   else [])

/-- The metric-name list built by `report_learning_rates`: `"te"` when the
text encoder trains, `"unet"` when the denoiser trains. -/
def report_names (config : TrainConfig) : List String :=
  (if config.text_encoder.train then ["te"] else []) ++
    (if config.unet.train then ["unet"] else [])

/-- `report_learning_rates(model, config, scheduler, tensorboard)` from the
source, with the scheduler's resolved rates `lrs`, the optimizer's
`maybe_adjust_lrs` hook `adjust`, and the current global step made explicit.
The assertion `len(lrs) == len(names)` becomes an `Except.error`; on
success the emitted `(name, rate, step)` metric triples are returned. -/
def report_learning_rates (config : TrainConfig) (lrs : List Nat)
    (adjust : List Nat → List Nat) (global_step : Nat) :
    Except String (List (String × Nat × Nat)) :=
  if lrs.length = (report_names config).length then
    Except.ok (((report_names config).zip (adjust lrs)).map
      (fun p => ("lr/" ++ p.1, p.2, global_step)))
  else
    Except.error "assertion failed: len(lrs) == len(names)"

/-- Sample data: a module section with training enabled (learning rate 1,
stop epoch 10). -/
def partOn : ModulePart := ⟨true, 1, 10⟩

/-- Sample data: a module section with training disabled. -/
def partOff : ModulePart := ⟨false, 2, 10⟩

/-- Sample data: a configuration training both adapters, embedding training
off, latent caching on. -/
def cfgBoth : TrainConfig := ⟨partOn, partOn, false, 4, 4, 0, false, false, true⟩

/-- Sample data: a configuration training both adapters, embedding training
on. -/
def cfgEmb : TrainConfig := ⟨partOn, partOn, true, 4, 4, 0, false, false, true⟩

/-- Sample data: an ambient config with embedding and denoiser training
disabled. -/
def argsNoUnet : Args := ⟨false, 2, false, 10, 3, "seed", 1⟩

/-- Sample data: an ambient config with embedding and denoiser training
enabled (embedding window of 2 epochs, denoiser window of 10). -/
def argsEmb : Args := ⟨true, 2, true, 10, 3, "seed", 1⟩

/-- Sample data: a model state at epoch 0 whose two-row embedding matrix has
its second row owned by the single pre-existing embedding. -/
def baseModel : SDModel :=
  { text_encoder_grad := true, unet_grad := true, vae_grad := true,
    text_encoder_lora := none, unet_lora := none,
    embedding_matrix := [[10], [20]], embedding_grad := false,
    embeddings := [⟨[[0]], [1], "embedding"⟩],
    all_text_encoder_original_token_embeds := [],
    text_encoder_untrainable_token_embeds_mask := [],
    train_progress := ⟨0, 0⟩ }

end SDLoRASetup

namespace SDLoRASetup

theorem setLoraGrad_isSome (l : Option LoRAModuleWrapper) (b : Bool) :
    (setLoraGrad l b).isSome = l.isSome := by
  cases l <;> rfl

theorem setLoraDropout_isSome (l : Option LoRAModuleWrapper) (p : Nat) :
    (setLoraDropout l p).isSome = l.isSome := by
  cases l <;> rfl

theorem hookLora_isSome (l : Option LoRAModuleWrapper) :
    (hookLora l).isSome = l.isSome := by
  cases l <;> rfl

theorem setLoraGrad_map_requiresGrad (l : Option LoRAModuleWrapper) (b : Bool) :
    (setLoraGrad l b).map (fun w => w.requires_grad) = l.map (fun _ => b) := by
  cases l <;> rfl

theorem hookLora_map_requiresGrad (l : Option LoRAModuleWrapper) :
    (hookLora l).map (fun w => w.requires_grad) =
      l.map (fun w => w.requires_grad) := by
  cases l <;> rfl

theorem ensure_te_lora_proj (m : SDModel) :
    (ensure_te_lora m).unet_lora = m.unet_lora ∧
    (ensure_te_lora m).embedding_matrix = m.embedding_matrix ∧
    (ensure_te_lora m).embeddings = m.embeddings ∧
    (ensure_te_lora m).train_progress = m.train_progress ∧
    (ensure_te_lora m).embedding_grad = m.embedding_grad := by
  unfold ensure_te_lora
  split_ifs <;> exact ⟨rfl, rfl, rfl, rfl, rfl⟩

theorem ensure_unet_lora_proj (m : SDModel) :
    (ensure_unet_lora m).embedding_matrix = m.embedding_matrix ∧
    (ensure_unet_lora m).embeddings = m.embeddings ∧
    (ensure_unet_lora m).train_progress = m.train_progress ∧
    (ensure_unet_lora m).embedding_grad = m.embedding_grad := by
  unfold ensure_unet_lora
  split_ifs <;> exact ⟨rfl, rfl, rfl, rfl⟩

theorem ensure_unet_lora_isSome (m : SDModel) :
    (ensure_unet_lora m).unet_lora.isSome = true := by
  unfold ensure_unet_lora
  cases h : m.unet_lora <;> simp [h]

theorem toggle_embedding_window_proj (m : SDModel) (args : Args) :
    (toggle_embedding_window m args).text_encoder_grad = m.text_encoder_grad ∧
    (toggle_embedding_window m args).unet_grad = m.unet_grad ∧
    (toggle_embedding_window m args).vae_grad = m.vae_grad ∧
    (toggle_embedding_window m args).unet_lora = m.unet_lora ∧
    (toggle_embedding_window m args).embedding_matrix = m.embedding_matrix ∧
    (toggle_embedding_window m args).embeddings = m.embeddings ∧
    (toggle_embedding_window m args).train_progress = m.train_progress := by
  unfold toggle_embedding_window
  split_ifs <;> exact ⟨rfl, rfl, rfl, rfl, rfl, rfl, rfl⟩

theorem ensure_embeddings_proj (m : SDModel) (args : Args) :
    (ensure_embeddings m args).text_encoder_grad = m.text_encoder_grad ∧
    (ensure_embeddings m args).unet_grad = m.unet_grad ∧
    (ensure_embeddings m args).vae_grad = m.vae_grad ∧
    (ensure_embeddings m args).unet_lora = m.unet_lora ∧
    (ensure_embeddings m args).embedding_matrix = m.embedding_matrix ∧
    (ensure_embeddings m args).embedding_grad = m.embedding_grad ∧
    (ensure_embeddings m args).train_progress = m.train_progress := by
  unfold ensure_embeddings
  split_ifs <;> exact ⟨rfl, rfl, rfl, rfl, rfl, rfl, rfl⟩

theorem ensure_embeddings_of_nonempty (m : SDModel) (args : Args)
    (h : m.embeddings ≠ []) : ensure_embeddings m args = m := by
  unfold ensure_embeddings
  split_ifs with hc
  · exact absurd (List.length_eq_zero.mp (Nat.beq_eq ▸ of_decide_eq_true
      (by simpa using hc))) h
  · rfl

theorem disable_embedding_after_window_proj (m : SDModel) (args : Args) :
    (disable_embedding_after_window m args).embedding_matrix =
      m.embedding_matrix ∧
    (disable_embedding_after_window m args).all_text_encoder_original_token_embeds =
      m.all_text_encoder_original_token_embeds ∧
    (disable_embedding_after_window m args).text_encoder_untrainable_token_embeds_mask =
      m.text_encoder_untrainable_token_embeds_mask := by
  unfold disable_embedding_after_window
  split_ifs <;> exact ⟨rfl, rfl, rfl⟩

theorem disable_embedding_after_window_closed (m : SDModel) (args : Args)
    (hTE : args.train_embedding = true)
    (hWin : args.train_embedding_epochs ≤ m.train_progress.epoch) :
    (disable_embedding_after_window m args).embedding_grad = false := by
  unfold disable_embedding_after_window
  have hc : (args.train_embedding &&
      !(decide (m.train_progress.epoch < args.train_embedding_epochs))) = true := by
    simp [hTE, Nat.not_lt.mpr hWin]
  rw [if_pos hc]

end SDLoRASetup

namespace SDLoRASetup

theorem restore_get (mutated orig : List (List Int)) (mask : List Bool)
    (i : Nat) (h1 : i < mutated.length) (h2 : i < orig.length)
    (h3 : i < mask.length) :
    (restore mutated orig mask).get? i =
      if mask.getD i false then orig.get? i else mutated.get? i := by
  induction mutated generalizing orig mask i with
  | nil => simp at h1
  | cons m ms ih =>
    cases orig with
    | nil => simp at h2
    | cons o os =>
      cases mask with
      | nil => simp at h3
      | cons b bs =>
        cases i with
        | zero => cases b <;> simp [restore]
        | succ n =>
          simp only [restore, List.get?_cons_succ, List.getD_cons_succ]
          exact ih os bs n (by simpa using h1) (by simpa using h2)
            (by simpa using h3)

/-- Claim C1: for every embedding matrix, snapshot copy and frozen-row mask
produced at snapshot time, after arbitrarily mutating rows (length
preserved), the restore step yields a matrix whose mask-true rows equal the
snapshot's rows bit-for-bit, and whose mask-false rows keep their mutated
values. -/
theorem embeddingGuard_roundtrip (matrix mutated : List (List Int))
    (ids : List Nat) (hlen : mutated.length = matrix.length) (i : Nat)
    (hi : i < mutated.length) :
    (restore mutated (snapshot matrix ids).1 (snapshot matrix ids).2).get? i =
      if (snapshot matrix ids).2.getD i false then
        (snapshot matrix ids).1.get? i
      else mutated.get? i := by
  refine restore_get mutated _ _ i hi ?_ ?_
  · simpa [snapshot] using hlen ▸ hi
  · simpa [snapshot] using hlen ▸ hi

theorem embeddingGuard_roundtrip_witness :
    (([[7], [8]] : List (List Int)).length =
      ([[1], [2]] : List (List Int)).length ∧ (0 : Nat) < 2) ∧
    ((restore [[7], [8]] (snapshot [[1], [2]] [1]).1
        (snapshot [[1], [2]] [1]).2).get? 0 =
      if (snapshot [[1], [2]] [1]).2.getD 0 false then
        (snapshot [[1], [2]] [1]).1.get? 0
      else ([[7], [8]] : List (List Int)).get? 0) :=
  ⟨⟨by decide, by decide⟩,
    embeddingGuard_roundtrip [[1], [2]] [[7], [8]] [1] (by decide) 0 (by decide)⟩

/-- Claim C7: the PhaseGate is a pure predicate: `elapsed L e` returns true
iff `e ≥ L`, and it is monotonic in the epoch. -/
theorem phaseGate_elapsed_iff_mono (L e e1 e2 : Nat) (hlt : e1 < e2) :
    (elapsed L e = true ↔ e ≥ L) ∧
    (elapsed L e1 = true → elapsed L e2 = true) := by
  refine ⟨by simp [elapsed], fun h => ?_⟩
  simp only [elapsed, decide_eq_true_eq] at h ⊢
  omega

theorem phaseGate_elapsed_iff_mono_witness :
    (1 : Nat) < 4 ∧
    ((elapsed 2 3 = true ↔ 3 ≥ 2) ∧ (elapsed 2 1 = true → elapsed 2 4 = true)) :=
  ⟨by decide, phaseGate_elapsed_iff_mono 2 3 1 4 (by decide)⟩

/-- Claim C9: `after_optimizer_step` does not depend on its `train_progress`
parameter: every phase decision reads `model.train_progress`, so two calls
with different progress arguments and equal model state coincide. -/
theorem after_optimizer_step_ignores_progress (model : SDModel)
    (config : TrainConfig) (args : Args) (p1 p2 : TrainProgress) :
    after_optimizer_step model config args p1 =
      after_optimizer_step model config args p2 := rfl

/-- Claim C2: every call to `after_optimizer_step` performs the
EmbeddingGuard restore of frozen embedding rows unconditionally; in
particular it still runs when the embedding training window has closed,
where additionally the embedding matrix's gradient flag is disabled (when
the ambient config enables embedding training at all). -/
theorem after_optimizer_step_always_restores (model : SDModel)
    (config : TrainConfig) (args : Args) (p : TrainProgress) :
    (after_optimizer_step model config args p).embedding_matrix =
      restore model.embedding_matrix
        model.all_text_encoder_original_token_embeds
        model.text_encoder_untrainable_token_embeds_mask ∧
    (args.train_embedding = true →
      args.train_embedding_epochs ≤ model.train_progress.epoch →
      (after_optimizer_step model config args p).embedding_grad = false) := by
  constructor
  · have h := disable_embedding_after_window_proj
      (toggle_unet_lora_gated (toggle_te_lora model config) config) args
    show restore
        (disable_embedding_after_window
          (toggle_unet_lora_gated (toggle_te_lora model config) config)
          args).embedding_matrix
        (disable_embedding_after_window
          (toggle_unet_lora_gated (toggle_te_lora model config) config)
          args).all_text_encoder_original_token_embeds
        (disable_embedding_after_window
          (toggle_unet_lora_gated (toggle_te_lora model config) config)
          args).text_encoder_untrainable_token_embeds_mask = _
    rw [h.1, h.2.1, h.2.2]
    rfl
  · intro hTE hWin
    show (restore_embedding_rows _).embedding_grad = false
    unfold restore_embedding_rows
    show (disable_embedding_after_window _ args).embedding_grad = false
    exact disable_embedding_after_window_closed _ args hTE hWin

theorem after_optimizer_step_always_restores_witness :
    (after_optimizer_step
        { text_encoder_grad := false, unet_grad := false, vae_grad := false,
          text_encoder_lora := none, unet_lora := none,
          embedding_matrix := [[5], [6]], embedding_grad := true,
          embeddings := [], all_text_encoder_original_token_embeds := [[1], [2]],
          text_encoder_untrainable_token_embeds_mask := [true, false],
          train_progress := ⟨3, 0⟩ }
        ⟨⟨true, 1, 10⟩, ⟨true, 1, 10⟩, false, 4, 4, 0, false, false, true⟩
        ⟨true, 2, true, 10, 3, "seed", 1⟩ ⟨0, 0⟩).embedding_matrix =
      restore [[5], [6]] [[1], [2]] [true, false] ∧
    (after_optimizer_step
        { text_encoder_grad := false, unet_grad := false, vae_grad := false,
          text_encoder_lora := none, unet_lora := none,
          embedding_matrix := [[5], [6]], embedding_grad := true,
          embeddings := [], all_text_encoder_original_token_embeds := [[1], [2]],
          text_encoder_untrainable_token_embeds_mask := [true, false],
          train_progress := ⟨3, 0⟩ }
        ⟨⟨true, 1, 10⟩, ⟨true, 1, 10⟩, false, 4, 4, 0, false, false, true⟩
        ⟨true, 2, true, 10, 3, "seed", 1⟩ ⟨0, 0⟩).embedding_grad = false :=
  ⟨(after_optimizer_step_always_restores _ _ _ _).1,
    (after_optimizer_step_always_restores _ _ _ _).2 rfl (by decide)⟩

/-- Claim C10: `setup_model` unconditionally disables gradient tracking on
all three base modules; after it returns, base-module weights never train,
regardless of config. -/
theorem setup_model_base_modules_frozen (model : SDModel)
    (config : TrainConfig) (args : Args) :
    (setup_model model config args).text_encoder_grad = false ∧
    (setup_model model config args).unet_grad = false ∧
    (setup_model model config args).vae_grad = false := by
  unfold setup_model
  have h1 := ensure_embeddings_proj
    (hook_loras
      (toggle_unet_lora_args
        (toggle_embedding_window
          (toggle_unet_lora_gated
            (toggle_te_lora
              (freeze_base_modules
                (set_dropouts (ensure_unet_lora (ensure_te_lora model)) config))
              config)
            config)
          args)
        args)) args
  have h2 := toggle_embedding_window_proj
    (toggle_unet_lora_gated
      (toggle_te_lora
        (freeze_base_modules
          (set_dropouts (ensure_unet_lora (ensure_te_lora model)) config))
        config)
      config) args
  refine ⟨?_, ?_, ?_⟩ <;>
    simp_all [assign_snapshot, hook_loras, toggle_unet_lora_args,
      toggle_unet_lora_gated, toggle_te_lora, freeze_base_modules]

end SDLoRASetup

namespace SDLoRASetup

theorem map_const_getD (l : Option LoRAModuleWrapper) (b d : Bool)
    (h : l.isSome = true) : (l.map (fun _ => b)).getD d = b := by
  cases l with
  | none => simp at h
  | some w => rfl

/-- Claim C3 counterexample: the passed config trains the denoiser and its
PhaseGate stop epoch has not elapsed, yet after `setup_model` the denoiser
adapter's gradient flag is disabled, because the duplicate final toggle
reads the ambient `args` where `train_unet` is false.  This refutes the
claimed iff. -/
theorem setup_model_unet_grad_counterexample :
    cfgBoth.unet.train = true ∧
    stop_unet_training_elapsed cfgBoth baseModel.train_progress = false ∧
    ((setup_model baseModel cfgBoth argsNoUnet).unet_lora.map
        (fun w => w.requires_grad)).getD false = false := by
  refine ⟨rfl, rfl, rfl⟩

/-- Claim C3 (amended): after `setup_model` returns, the denoiser adapter's
gradient flag equals `args.train_unet && (epoch < args.train_unet_epochs)`
computed from the ambient flat config: the duplicate final toggle silently
overrides the earlier config/PhaseGate-gated one.  (The two agree exactly
when the ambient config mirrors the passed config.) -/
theorem setup_model_unet_grad_final (model : SDModel) (config : TrainConfig)
    (args : Args) :
    ((setup_model model config args).unet_lora.map
        (fun w => w.requires_grad)).getD false =
      (args.train_unet &&
        decide (model.train_progress.epoch < args.train_unet_epochs)) := by
  have key : ∀ g : SDModel, g.unet_lora.isSome = true →
      ((assign_snapshot
          (ensure_embeddings
            (hook_loras (toggle_unet_lora_args g args)) args)).unet_lora.map
        (fun w => w.requires_grad)).getD false =
      (args.train_unet &&
        decide (g.train_progress.epoch < args.train_unet_epochs)) := by
    intro g hg
    show ((ensure_embeddings
      (hook_loras (toggle_unet_lora_args g args)) args).unet_lora.map
        (fun w => w.requires_grad)).getD false = _
    rw [(ensure_embeddings_proj _ args).2.2.2.1]
    show ((hookLora (setLoraGrad g.unet_lora _)).map
      (fun w => w.requires_grad)).getD false = _
    rw [hookLora_map_requiresGrad, setLoraGrad_map_requiresGrad,
      map_const_getD g.unet_lora _ _ hg]
  have hsome : (toggle_embedding_window
      (toggle_unet_lora_gated
        (toggle_te_lora
          (freeze_base_modules
            (set_dropouts (ensure_unet_lora (ensure_te_lora model)) config))
          config)
        config)
      args).unet_lora.isSome = true := by
    rw [(toggle_embedding_window_proj _ args).2.2.2.1]
    show (setLoraGrad (setLoraDropout
      (ensure_unet_lora (ensure_te_lora model)).unet_lora
      config.dropout_probability) _).isSome = true
    rw [setLoraGrad_isSome, setLoraDropout_isSome]
    exact ensure_unet_lora_isSome _
  have hprog : (toggle_embedding_window
      (toggle_unet_lora_gated
        (toggle_te_lora
          (freeze_base_modules
            (set_dropouts (ensure_unet_lora (ensure_te_lora model)) config))
          config)
        config)
      args).train_progress = model.train_progress := by
    rw [(toggle_embedding_window_proj _ args).2.2.2.2.2.2]
    show (ensure_unet_lora (ensure_te_lora model)).train_progress = _
    rw [(ensure_unet_lora_proj _).2.2.1, (ensure_te_lora_proj _).2.2.2.1]
  have hfin := key _ hsome
  rw [hprog] at hfin
  exact hfin

/-- Claim C8 counterexample: after a first `setup_model`, an optimizer
update that changes the trainable row, and the after-step restore, a second
`setup_model` call in the same run reassigns the stored snapshot to a
different value, refuting "never regenerated". -/
theorem setup_model_snapshot_regenerated_counterexample :
    (setup_model
        (after_optimizer_step
          { setup_model baseModel cfgBoth argsNoUnet with
              embedding_matrix := [[10], [99]] }
          cfgBoth argsNoUnet ⟨0, 0⟩)
        cfgBoth argsNoUnet).all_text_encoder_original_token_embeds ≠
      (setup_model baseModel cfgBoth argsNoUnet).all_text_encoder_original_token_embeds := by
  decide

/-- Claim C8 (amended): the Embedding entity is created only at the first
`setup_model` call when none exist (a later call with embeddings present
leaves the list unchanged), but the snapshot and freeze mask are recomputed
and reassigned from the current matrix state on every `setup_model` call:
the assignment is outside the creation guard. -/
theorem setup_model_snapshot_recomputed (model : SDModel)
    (config : TrainConfig) (args : Args) (h : model.embeddings ≠ []) :
    (setup_model model config args).embeddings = model.embeddings ∧
    (setup_model model config args).all_text_encoder_original_token_embeds =
      model.embedding_matrix ∧
    (setup_model model config args).text_encoder_untrainable_token_embeds_mask =
      (snapshot model.embedding_matrix
        ((model.embeddings.headD ⟨[], [], ""⟩).text_tokens)).2 := by
  have key : ∀ g : SDModel, g.embeddings = model.embeddings →
      g.embedding_matrix = model.embedding_matrix →
      (assign_snapshot (ensure_embeddings g args)).embeddings =
        model.embeddings ∧
      (assign_snapshot
          (ensure_embeddings g args)).all_text_encoder_original_token_embeds =
        model.embedding_matrix ∧
      (assign_snapshot
          (ensure_embeddings g args)).text_encoder_untrainable_token_embeds_mask =
        (snapshot model.embedding_matrix
          ((model.embeddings.headD ⟨[], [], ""⟩).text_tokens)).2 := by
    intro g hge hgm
    have hEE := ensure_embeddings_of_nonempty g args (by rw [hge]; exact h)
    rw [hEE]
    refine ⟨hge, hgm, ?_⟩
    show (snapshot g.embedding_matrix
      ((g.embeddings.headD ⟨[], [], ""⟩).text_tokens)).2 = _
    rw [hge, hgm]
  have hemb : (hook_loras
      (toggle_unet_lora_args
        (toggle_embedding_window
          (toggle_unet_lora_gated
            (toggle_te_lora
              (freeze_base_modules
                (set_dropouts (ensure_unet_lora (ensure_te_lora model)) config))
              config)
            config)
          args)
        args)).embeddings = model.embeddings := by
    show (toggle_embedding_window
      (toggle_unet_lora_gated
        (toggle_te_lora
          (freeze_base_modules
            (set_dropouts (ensure_unet_lora (ensure_te_lora model)) config))
          config)
        config)
      args).embeddings = _
    rw [(toggle_embedding_window_proj _ args).2.2.2.2.2.1]
    show (ensure_unet_lora (ensure_te_lora model)).embeddings = _
    rw [(ensure_unet_lora_proj _).2.1, (ensure_te_lora_proj _).2.2.1]
  have hmat : (hook_loras
      (toggle_unet_lora_args
        (toggle_embedding_window
          (toggle_unet_lora_gated
            (toggle_te_lora
              (freeze_base_modules
                (set_dropouts (ensure_unet_lora (ensure_te_lora model)) config))
              config)
            config)
          args)
        args)).embedding_matrix = model.embedding_matrix := by
    show (toggle_embedding_window
      (toggle_unet_lora_gated
        (toggle_te_lora
          (freeze_base_modules
            (set_dropouts (ensure_unet_lora (ensure_te_lora model)) config))
          config)
        config)
      args).embedding_matrix = _
    rw [(toggle_embedding_window_proj _ args).2.2.2.2.1]
    show (ensure_unet_lora (ensure_te_lora model)).embedding_matrix = _
    rw [(ensure_unet_lora_proj _).1, (ensure_te_lora_proj _).2.1]
  exact key _ hemb hmat

theorem setup_model_snapshot_recomputed_witness :
    baseModel.embeddings ≠ [] ∧
    ((setup_model baseModel cfgBoth argsNoUnet).embeddings =
        baseModel.embeddings ∧
      (setup_model baseModel cfgBoth
          argsNoUnet).all_text_encoder_original_token_embeds =
        baseModel.embedding_matrix ∧
      (setup_model baseModel cfgBoth
          argsNoUnet).text_encoder_untrainable_token_embeds_mask =
        (snapshot baseModel.embedding_matrix
          ((baseModel.embeddings.headD ⟨[], [], ""⟩).text_tokens)).2) :=
  ⟨by decide,
    setup_model_snapshot_recomputed baseModel cfgBoth argsNoUnet (by decide)⟩

/-- Claim C4: with embedding training active, the optimizer is built from
three parameter groups (te, embedding, unet) while `report_learning_rates`
names only two ("te", "unet"): the embedding group gets no metric and the
method's own count assertion fails on the three positional rates. -/
theorem report_learning_rates_embedding_group_missing :
    (create_parameters_for_optimizer baseModel cfgEmb argsEmb).length = 3 ∧
    report_names cfgEmb = ["te", "unet"] ∧
    report_learning_rates cfgEmb [1, 2, 3] id 0 =
      Except.error "assertion failed: len(lrs) == len(names)" :=
  ⟨rfl, rfl, rfl⟩

/-- Claim C5: `report_learning_rates` fails with the
configuration-consistency error (emitting no metrics) exactly when the
resolved rate count differs from the active-name count, and emits the
zipped metrics when the counts agree. -/
theorem report_learning_rates_length_guard (config : TrainConfig)
    (lrs : List Nat) (adjust : List Nat → List Nat) (global_step : Nat) :
    (lrs.length ≠ (report_names config).length →
      report_learning_rates config lrs adjust global_step =
        Except.error "assertion failed: len(lrs) == len(names)") ∧
    (lrs.length = (report_names config).length →
      report_learning_rates config lrs adjust global_step =
        Except.ok (((report_names config).zip (adjust lrs)).map
          (fun p => ("lr/" ++ p.1, p.2, global_step)))) := by
  unfold report_learning_rates
  exact ⟨fun h => by rw [if_neg h], fun h => by rw [if_pos h]⟩

theorem report_learning_rates_length_guard_witness :
    (report_learning_rates cfgBoth [1] id 0 =
      Except.error "assertion failed: len(lrs) == len(names)") ∧
    (report_learning_rates cfgBoth [1, 2] id 0 =
      Except.ok (((report_names cfgBoth).zip (id [1, 2])).map
        (fun p => ("lr/" ++ p.1, p.2, 0)))) :=
  ⟨(report_learning_rates_length_guard cfgBoth [1] id 0).1 (by decide),
    (report_learning_rates_length_guard cfgBoth [1, 2] id 0).2 (by decide)⟩

/-- Claim C6: `setup_train_device` assigns tiers as a pure function of the
flags: the text encoder is on the fast tier iff it is trained, the
embedding is trained, align-prop is active, or latent caching is disabled;
the autoencoder iff debug or align-prop is active; the denoiser always
fast; the depth estimator always slow. -/
theorem setup_train_device_placement (debug_mode : Bool)
    (config : TrainConfig) :
    ((setup_train_device debug_mode config).text_encoder = Device.train ↔
      (config.text_encoder.train = true ∨ config.train_embedding = true ∨
        config.align_prop = true ∨ config.latent_caching = false)) ∧
    ((setup_train_device debug_mode config).vae = Device.train ↔
      (debug_mode = true ∨ config.align_prop = true)) ∧
    (setup_train_device debug_mode config).unet = Device.train ∧
    (setup_train_device debug_mode config).depth_estimator = Device.temp := by
  refine ⟨?_, ?_, rfl, rfl⟩ <;>
    · show (if _ then Device.train else Device.temp) = Device.train ↔ _
      split_ifs with hc <;> simp_all <;> tauto

end SDLoRASetup
